import Mathlib

/-!
Shallow embedding of `src/discord_logger/logger.py` (vincentFrancais/discord-logger).

Python integers are modelled as `Int`, HTTP status codes as `Nat`, strings as
`String`.  Python exceptions are modelled by `Except PyError`.  Ambient runtime
inputs (wall clock, thread/process names, caller frame, HTTP responses) are
passed explicitly as parameters.
-/

namespace DiscordLoggerModel

/-- Python exceptions raised by the module. -/
inductive PyError where
  | keyError (key : String)
  | valueError (msg : String)
  | typeError (msg : String)
  | environmentError (msg : String)
  deriving DecidableEq, Repr

/-- Model of `class LogLevel(IntEnum)` with members NOTSET..CRITICAL. -/
inductive LogLevel where
  | NOTSET | DEBUG | INFO | WARNING | ERROR | CRITICAL
  deriving DecidableEq, Repr

/-- The `IntEnum` numeric value of each level. -/
def LogLevel.value : LogLevel → Int
  | .NOTSET => 0
  | .DEBUG => 10
  | .INFO => 20
  | .WARNING => 30
  | .ERROR => 40
  | .CRITICAL => 50

/-- The `.name` attribute of each enum member. -/
def LogLevel.name : LogLevel → String
  | .NOTSET => "NOTSET"
  | .DEBUG => "DEBUG"
  | .INFO => "INFO"
  | .WARNING => "WARNING"
  | .ERROR => "ERROR"
  | .CRITICAL => "CRITICAL"

/-- Value-based enum lookup `LogLevel(n)`; `none` models the `ValueError`
raised when `n` is not a defined value. -/
def LogLevel.ofValue? : Int → Option LogLevel
  | 0 => some .NOTSET
  | 10 => some .DEBUG
  | 20 => some .INFO
  | 30 => some .WARNING
  | 40 => some .ERROR
  | 50 => some .CRITICAL
  | _ => none

/-- Name-based enum lookup `LogLevel[s]` (case-sensitive); `none` models the
`KeyError` raised when `s` is not a member name. -/
def LogLevel.ofName? (s : String) : Option LogLevel :=
  if s = "NOTSET" then some .NOTSET
  else if s = "DEBUG" then some .DEBUG
  else if s = "INFO" then some .INFO
  else if s = "WARNING" then some .WARNING
  else if s = "ERROR" then some .ERROR
  else if s = "CRITICAL" then some .CRITICAL
  else none

/-- Model of `class LevelColor(StrEnum)`: hex color per level name
(ERROR and CRITICAL share a color). -/
def LevelColor : LogLevel → String
  | .NOTSET => "000000"
  | .DEBUG => "D5EAD8"
  | .INFO => "1974D2"
  | .WARNING => "FFE135"
  | .ERROR => "C90913"
  | .CRITICAL => "C90913"

/-- The dynamic type of the `level` argument of `DiscordLogger.log`:
a `LogLevel` member, a Python `int`, or a `str`. -/
inductive LevelArg where
  | enum (l : LogLevel)
  | int (n : Int)
  | str (s : String)
  deriving DecidableEq, Repr

/-- Model of `_parse_level_to_int`: returns `level.value` for an enum member, the raw
int unchanged for an int (no validation), and `LogLevel[s].value` for a
string (raising `KeyError` on an unknown name). -/
def parse_level_to_int : LevelArg → Except PyError Int
  | .enum l => .ok l.value
  | .int n => .ok n
  | .str s =>
      match LogLevel.ofName? s with
      | some l => .ok l.value
      | none => .error (.keyError s)

/-- Model of `_parse_level`: returns the member itself for an enum, `LogLevel(n)` for an
int (raising `ValueError` on an undefined value), `LogLevel[s]` for a string
(raising `KeyError` on an unknown name). -/
def parse_level : LevelArg → Except PyError LogLevel
  | .enum l => .ok l
  | .int n =>
      match LogLevel.ofValue? n with
      | some l => .ok l
      | none => .error (.valueError "not a valid LogLevel")
  | .str s =>
      match LogLevel.ofName? s with
      | some l => .ok l
      | none => .error (.keyError s)

/-- A timezone-aware instant: the instant itself (`epoch`) plus the timezone
offset the `datetime` carries.  `astimezone` changes the offset but not the
instant. -/
structure Timestamp where
  epoch : Int
  offsetMin : Int
  deriving DecidableEq, Repr

/-- Conversion `dt.astimezone(tz=timezone.utc)`: same instant, UTC offset. -/
def Timestamp.astimezoneUTC (t : Timestamp) : Timestamp :=
  ⟨t.epoch, 0⟩

/-- A value stored in a record field dict: Python `str | int`. -/
inductive FieldValue where
  | str (s : String)
  | int (n : Int)
  deriving DecidableEq, Repr

/-- Model of `@dataclass class LogRecord`, field declaration order preserved. -/
structure LogRecord where
  level : LogLevel
  app_name : String
  message : String
  timestamp : Timestamp
  thread_name : Option String
  process_name : Option String
  line_number : Option Int
  func_name : Option String
  module_name : Option String
  deriving DecidableEq, Repr

/-- Model of `LogRecord.get_optional_fields`: the non-`None` fields among
`_optional_keys`, in `dataclasses.asdict` order, i.e. the dataclass field
declaration order: thread_name, process_name, line_number, func_name,
module_name. -/
def LogRecord.get_optional_fields (r : LogRecord) : List (String × FieldValue) :=
  (match r.thread_name with
    | some v => [("thread_name", FieldValue.str v)]
    | none => []) ++
  (match r.process_name with
    | some v => [("process_name", FieldValue.str v)]
    | none => []) ++
  (match r.line_number with
    | some v => [("line_number", FieldValue.int v)]
    | none => []) ++
  (match r.func_name with
    | some v => [("func_name", FieldValue.str v)]
    | none => []) ++
  (match r.module_name with
    | some v => [("module_name", FieldValue.str v)]
    | none => [])

/-- Model of `_embedded_key_to_name`: display name for each optional key. -/
def embedded_key_to_name (k : String) : String :=
  if k = "thread_name" then "Thread"
  else if k = "process_name" then "Process"
  else if k = "func_name" then "Function"
  else if k = "module_name" then "Module"
  else if k = "line_number" then "Line"
  else ""

/-- The constant `_package_name = "Discord-Logger"`. -/
def package_name : String := "Discord-Logger"

/-- Modelled from the spec: the version string imported from
`discord_logger.__version__`, whose source file is not present; the spec only
requires that the footer be the package name followed by the version, so the
concrete value is irrelevant to every statement below. -/
def versionString : String := "0.1.0"

/-- The parts of a `DiscordEmbed` that `format_payload_embedded` sets. -/
structure DiscordEmbed where
  title : String
  description : String
  author : String
  footer : String
  color : String
  timestamp : Timestamp
  fields : List (String × FieldValue)
  deriving DecidableEq, Repr

/-- Model of `format_payload_embedded(log_record)`: title is the level name wrapped in
backticks, description the message, author the app name, footer
`"{_package_name} {__version__}"`, color from `LevelColor`, timestamp the
record timestamp converted to UTC, then one embed field per present optional
field in `get_optional_fields` iteration order. -/
def format_payload_embedded (log_record : LogRecord) : DiscordEmbed :=
  { title := "`" ++ log_record.level.name ++ "`"
  , description := log_record.message
  , author := log_record.app_name
  , footer := package_name ++ " " ++ versionString
  , color := LevelColor log_record.level
  , timestamp := log_record.timestamp.astimezoneUTC
  , fields := log_record.get_optional_fields.map
      (fun kv => (embedded_key_to_name kv.1, kv.2)) }

/-- The `self._optional_fields` dict of a logger: which optional record fields
are enabled. -/
structure OptionalFlags where
  thread_name : Bool
  process_name : Bool
  module_name : Bool
  func_name : Bool
  line_number : Bool
  deriving DecidableEq, Repr

/-- All flags enabled: `{k: True for k in _optional_keys}` (the `embed_all=True` branch). -/
def OptionalFlags.all : OptionalFlags := ⟨true, true, true, true, true⟩

/-- The state a constructed `DiscordLogger` holds: app name, the URL its own
`DiscordWebhook` client is bound to, the extra kwargs forwarded untouched to
that client, the enabled optional fields, and the configured level. -/
structure LoggerState where
  app_name : String
  webhook_url : String
  webhook_kwargs : List (String × Int)
  optional_fields : OptionalFlags
  level : LogLevel
  deriving DecidableEq, Repr

/-- Model of `DiscordLogger._set_log_level`: enum kept as-is, int via `LogLevel(n)`,
string via `LogLevel[s]`. -/
def set_log_level (lg : LoggerState) (level : LevelArg) :
    Except PyError LoggerState :=
  match parse_level level with
  | .ok l => .ok { lg with level := l }
  | .error e => .error e

/-- The keyword arguments of `DiscordLogger.__init__` (and of `get_logger`).
`extraKwargs` models `**discord_webhook_kwargs`, forwarded to the webhook
client without inspection. -/
structure LoggerKwargs where
  webhook_url : Option String
  level : LevelArg
  embed_process_name : Bool
  embed_thread_name : Bool
  embed_line_number : Bool
  embed_func_name : Bool
  embed_module_name : Bool
  embed_all : Bool
  extraKwargs : List (String × Int)
  deriving DecidableEq, Repr

/-- Default keyword arguments of `DiscordLogger.__init__`. -/
def LoggerKwargs.default : LoggerKwargs :=
  ⟨none, .enum .INFO, false, false, false, false, false, false, []⟩

/-- Model of `_get_webhook_url`: the environment value of `DISCORDLOGGER_WEBHOOK_URL`
(after `load_dotenv`), modelled as an explicit `Option String` input; absence
raises `EnvironmentError`. -/
def get_webhook_url (env : Option String) : Except PyError String :=
  match env with
  | some u => .ok u
  | none => .error (.environmentError "Could not find DISCORDLOGGER_WEBHOOK_URL in environment.")

/-- Model of `DiscordLogger.__init__`: resolve the URL (falling back to the environment
when the argument is falsy), build the webhook client with the extra kwargs,
set the optional-field flags (`embed_all` enabling everything), and parse the
level.  No payload-format-mode argument exists and no payload-mode validation
is performed. -/
def DiscordLogger.init (name : String) (kw : LoggerKwargs) (env : Option String) :
    Except PyError LoggerState :=
  let urlArg :=
    match kw.webhook_url with
    | some u => if u = "" then get_webhook_url env else .ok u
    | none => get_webhook_url env
  match urlArg with
  | .error e => .error e
  | .ok url =>
      let flags :=
        if kw.embed_all then OptionalFlags.all
        else
          { thread_name := kw.embed_thread_name
          , process_name := kw.embed_process_name
          , module_name := kw.embed_module_name
          , func_name := kw.embed_func_name
          , line_number := kw.embed_line_number }
      set_log_level
        { app_name := name
        , webhook_url := url
        , webhook_kwargs := kw.extraKwargs
        , optional_fields := flags
        , level := LogLevel.NOTSET }
        kw.level

/-- The ambient runtime data a `log` call observes: the wall clock, the
current thread and process names, and the caller frame found by
`_find_caller` (file path, line number, function name). -/
structure CallerContext where
  now : Timestamp
  thread_name : String
  process_name : String
  caller_path : String
  caller_lineno : Int
  caller_func : String
  deriving DecidableEq, Repr

/-- Computation `caller_path.split("/")[-1]`: keep the final path component. -/
def moduleNameOfPath (p : String) : String :=
  (p.splitOn "/").getLastD ""

/-- Model of `DiscordLogger.get_fields`, together with a flag recording whether
`_find_caller` (caller-frame introspection) was invoked.  The dict insertion
order of the source is kept: func_name, module_name, line_number, then
thread_name, then process_name. -/
def DiscordLogger.get_fields (lg : LoggerState) (ctx : CallerContext) :
    List (String × FieldValue) × Bool :=
  let fl := lg.optional_fields
  let anyFlag := fl.thread_name || fl.process_name || fl.func_name ||
    fl.module_name || fl.line_number
  let callerFields :=
    if anyFlag then
      (if fl.func_name then [("func_name", FieldValue.str ctx.caller_func)] else []) ++
      (if fl.module_name then
        [("module_name", FieldValue.str (moduleNameOfPath ctx.caller_path))] else []) ++
      (if fl.line_number then [("line_number", FieldValue.int ctx.caller_lineno)] else [])
    else []
  let fields := callerFields ++
    (if fl.thread_name then [("thread_name", FieldValue.str ctx.thread_name)] else []) ++
    (if fl.process_name then [("process_name", FieldValue.str ctx.process_name)] else [])
  (fields, anyFlag)

/-- Dict read `fields.get(k, None)` restricted to string-valued fields. -/
def getStr (fields : List (String × FieldValue)) (k : String) : Option String :=
  match fields.lookup k with
  | some (.str s) => some s
  | _ => none

/-- Dict read `fields.get(k, None)` restricted to int-valued fields. -/
def getInt (fields : List (String × FieldValue)) (k : String) : Option Int :=
  match fields.lookup k with
  | some (.int n) => some n
  | _ => none

/-- The `LogRecord(...)` construction inside `DiscordLogger.log`
(lines 367-377 of the source). -/
def buildRecord (lg : LoggerState) (log_level : LogLevel) (message : String)
    (log_timestamp : Timestamp) (fields : List (String × FieldValue)) : LogRecord :=
  { level := log_level
  , app_name := lg.app_name
  , timestamp := log_timestamp
  , message := message
  , thread_name := getStr fields "thread_name"
  , process_name := getStr fields "process_name"
  , line_number := getInt fields "line_number"
  , func_name := getStr fields "func_name"
  , module_name := getStr fields "module_name" }

/-- One `webhook.execute` call: the URL posted to and the embed carried. -/
structure DeliveryAttempt where
  url : String
  embed : DiscordEmbed
  deriving DecidableEq, Repr

/-- The warning text of `DiscordLogger.log` on a non-200 response. -/
def syncFailWarning (status : Nat) : String :=
  "Failed to send log. Status code: " ++ toString status

/-- The warning text of `_Dispatcher._dispatch` on a non-200 response. -/
def dispatchFailWarning (url : String) (status : Nat) : String :=
  "Failed to log message to " ++ url ++ ", status code: " ++ toString status

/-- The observable outcome of one `DiscordLogger.log` call that returned
normally: whether a record was built, whether the caller frame was inspected,
the webhook deliveries performed on the calling thread, and the warnings
emitted. -/
structure LogOutcome where
  recordBuilt : Option LogRecord
  inspectedCaller : Bool
  deliveries : List DeliveryAttempt
  warnings : List String
  deriving DecidableEq, Repr

/-- Model of `DiscordLogger.log(level, message)`: take the timestamp, parse the level
to an int, return immediately if below the configured threshold, otherwise
re-parse the level to a `LogLevel`, gather fields, build the record, attach
the embed to the logger's own webhook and execute it synchronously, warning
(never raising) on a non-200 response.  `responseStatus` is the HTTP status
the webhook client receives. -/
def DiscordLogger.log (lg : LoggerState) (level : LevelArg) (message : String)
    (ctx : CallerContext) (responseStatus : Nat) : Except PyError LogOutcome :=
  let log_timestamp := ctx.now
  match parse_level_to_int level with
  | .error e => .error e
  | .ok level_int =>
      if level_int < lg.level.value then
        .ok { recordBuilt := none, inspectedCaller := false
            , deliveries := [], warnings := [] }
      else
        match parse_level level with
        | .error e => .error e
        | .ok log_level =>
            let fieldsInspected := DiscordLogger.get_fields lg ctx
            let log_record :=
              buildRecord lg log_level message log_timestamp fieldsInspected.1
            let embed := format_payload_embedded log_record
            let warns :=
              if responseStatus ≠ 200 then [syncFailWarning responseStatus] else []
            .ok { recordBuilt := some log_record
                , inspectedCaller := fieldsInspected.2
                , deliveries := [⟨lg.webhook_url, embed⟩]
                , warnings := warns }

/-- Model of `@dataclass class LogPayload`: a record paired with its destination
URLs. -/
structure LogPayload where
  payload : LogRecord
  url : List String
  deriving DecidableEq, Repr

/-- Model of `_Dispatcher._dispatch(payload)`: build one webhook client per destination
URL, format the embed once, attach it to every client, then execute each
client in turn, warning (never raising) per destination on a non-200
response.  `respond` gives the status each destination returns. -/
def Dispatcher.dispatch (payload : LogPayload) (respond : String → Nat) :
    List DeliveryAttempt × List String :=
  let e := format_payload_embedded payload.payload
  let attempts := payload.url.map (fun u => DeliveryAttempt.mk u e)
  let warns := payload.url.filterMap (fun u =>
    if respond u ≠ 200 then some (dispatchFailWarning u (respond u)) else none)
  (attempts, warns)

/-- One `DiscordLogger` object: a distinct identity (Python object identity)
plus its state. -/
structure LoggerInstance where
  id : Nat
  cfg : LoggerState
  deriving DecidableEq, Repr

/-- The `LoggerManager` singleton's state: the `_registry` dict (insertion
ordered) and the next fresh object identity; `nextId` also counts how many
`DiscordLogger` objects the factory has constructed. -/
structure ManagerState where
  registry : List (String × LoggerInstance)
  nextId : Nat
  deriving DecidableEq, Repr

/-- The empty registry a freshly constructed singleton holds. -/
def ManagerState.empty : ManagerState := ⟨[], 0⟩

/-- Dict lookup `d[k]` / membership `k in d` on the ordered registry. -/
def lookupName (l : List (String × LoggerInstance)) (k : String) :
    Option LoggerInstance :=
  match l with
  | [] => none
  | (k', v) :: rest => if k' = k then some v else lookupName rest k

/-- Dict assignment `d[k] = v`: replace the existing binding, else append. -/
def setName (l : List (String × LoggerInstance)) (k : String)
    (v : LoggerInstance) : List (String × LoggerInstance) :=
  match l with
  | [] => [(k, v)]
  | (k', v') :: rest =>
      if k' = k then (k, v) :: rest else (k', v') :: setName rest k v

/-- Model of `LoggerManager.get_logger(name, **kwargs)`: if `name` is unregistered,
construct a logger with the given kwargs and insert it; then return
`self._registry[name]`.  No lock is taken.  (The `TypeError` branch for a
non-string name is outside this model because `name` is typed.)

The trailing `return self._registry[name]` is factored out as
`returnRegistered`: a fresh dict read that raises `KeyError` when absent. -/
def ManagerState.returnRegistered (m : ManagerState) (name : String) :
    Except PyError (LoggerInstance × ManagerState) :=
  match lookupName m.registry name with
  | some inst => .ok (inst, m)
  | none => .error (.keyError name)

def ManagerState.get_logger (m : ManagerState) (name : String)
    (kw : LoggerKwargs) (env : Option String) :
    Except PyError (LoggerInstance × ManagerState) :=
  match lookupName m.registry name with
  | some _ => m.returnRegistered name
  | none =>
      match DiscordLogger.init name kw env with
      | .error e => .error e
      | .ok cfg =>
          (ManagerState.mk
            (setName m.registry name ⟨m.nextId, cfg⟩) (m.nextId + 1)).returnRegistered name

/-- Process-wide state relevant to the singleton and the dispatcher:
`LoggerManager._instance`, how many `_Dispatcher` objects have been
constructed, whether any dispatcher thread was ever started, and the
dispatcher queue contents. -/
structure ProcessState where
  managerInstance : Option ManagerState
  dispatchersConstructed : Nat
  dispatcherStarted : Bool
  dispatcherQueue : List LogPayload
  deriving Repr

/-- A process before the module is imported. -/
def ProcessState.fresh : ProcessState := ⟨none, 0, false, []⟩

/-- One `LoggerManager()` call: `__new__` (under the class lock) installs the
singleton instance with an empty registry if absent, then `__init__` runs
unconditionally on the returned instance and constructs a fresh `_Dispatcher`
that is bound to a local variable, never stored and never started. -/
def LoggerManager.construct (p : ProcessState) : ProcessState :=
  let p1 :=
    match p.managerInstance with
    | some _ => p
    | none => { p with managerInstance := some ManagerState.empty }
  { p1 with dispatchersConstructed := p1.dispatchersConstructed + 1 }

/-- Importing the module runs `manager = LoggerManager()` once. -/
def importModule (p : ProcessState) : ProcessState :=
  LoggerManager.construct p

/-- The state of a process that has just imported the module. -/
def initialProcess : ProcessState := importModule ProcessState.fresh

/-- The public API operations a program can perform against the module. -/
inductive ApiOp where
  | constructManager
  | getLogger (name : String) (kw : LoggerKwargs) (env : Option String)
  | logCall (name : String) (level : LevelArg) (message : String)
      (ctx : CallerContext) (responseStatus : Nat)

/-- One API operation against the process state; the second component lists
the webhook deliveries the calling thread performed during that very call.
`logCall` addresses the registered logger of that name (a no-op when the name
is unregistered or the call raised). -/
def stepOp (p : ProcessState) (op : ApiOp) :
    ProcessState × List DeliveryAttempt :=
  match op with
  | .constructManager => (LoggerManager.construct p, [])
  | .getLogger name kw env =>
      match p.managerInstance with
      | none => (p, [])
      | some m =>
          match m.get_logger name kw env with
          | .ok (_, m') => ({ p with managerInstance := some m' }, [])
          | .error _ => (p, [])
  | .logCall name level message ctx status =>
      match p.managerInstance with
      | none => (p, [])
      | some m =>
          match lookupName m.registry name with
          | none => (p, [])
          | some inst =>
              match DiscordLogger.log inst.cfg level message ctx status with
              | .ok out => (p, out.deliveries)
              | .error _ => (p, [])

/-- Run a sequence of API operations. -/
def runOps (p : ProcessState) : List ApiOp → ProcessState
  | [] => p
  | op :: rest => runOps (stepOp p op).1 rest

/-- A thread's position inside the body of `get_logger` for a fixed name.
The membership check and the construct-and-insert are separate shared-memory
accesses because no lock is taken between them. -/
inductive ThreadPos where
  | atCheck
  | atInsert (sawAbsent : Bool)
  | atReturn
  | done (r : Option LoggerInstance)
  deriving DecidableEq, Repr

/-- One scheduler-chosen step of a thread running
`get_logger(name, **kw)` against the shared registry. -/
def threadStep (sh : ManagerState) (t : ThreadPos) (name : String)
    (kw : LoggerKwargs) (env : Option String) : ManagerState × ThreadPos :=
  match t with
  | .atCheck => (sh, .atInsert (lookupName sh.registry name).isNone)
  | .atInsert sawAbsent =>
      if sawAbsent then
        match DiscordLogger.init name kw env with
        | .ok cfg =>
            (ManagerState.mk (setName sh.registry name ⟨sh.nextId, cfg⟩)
              (sh.nextId + 1), .atReturn)
        | .error _ => (sh, .done none)
      else (sh, .atReturn)
  | .atReturn => (sh, .done (lookupName sh.registry name))
  | .done r => (sh, .done r)

/-- Two threads racing through `get_logger(name, **kw)`; the schedule says
which thread takes the next step (`true` = thread A). -/
structure RaceState where
  shared : ManagerState
  tA : ThreadPos
  tB : ThreadPos
  deriving Repr

/-- Run a race of two first-time `get_logger` calls under a schedule. -/
def runRace (name : String) (kw : LoggerKwargs) (env : Option String) :
    RaceState → List Bool → RaceState
  | rs, [] => rs
  | rs, (true :: sched) =>
      let (sh, tA) := threadStep rs.shared rs.tA name kw env
      runRace name kw env ⟨sh, tA, rs.tB⟩ sched
  | rs, (false :: sched) =>
      let (sh, tB) := threadStep rs.shared rs.tB name kw env
      runRace name kw env ⟨sh, rs.tA, tB⟩ sched

/-- Substring containment: does `needle` occur inside `hay`?  Used to state
that a warning text identifies a destination or a status. -/
def strContains (hay needle : String) : Prop :=
  needle.toList <:+: hay.toList

instance (hay needle : String) : Decidable (strContains hay needle) :=
  List.decidableInfix needle.toList hay.toList

/-! ### Concrete inputs shared by witnesses and counterexamples -/

/-- A concrete logger: all optional fields enabled, threshold INFO,
webhook bound to `https://x`. -/
def lgW : LoggerState := ⟨"MyApp", "https://x", [], OptionalFlags.all, .INFO⟩

/-- A concrete ambient context for a `log` call. -/
def ctxW : CallerContext :=
  ⟨⟨1000, 120⟩, "MainThread", "MainProcess", "/home/app/main.py", 42, "work"⟩

/-- A concrete record with every optional field present. -/
def recAllW : LogRecord :=
  ⟨.INFO, "A", "m", ⟨0, 0⟩, some "t", some "p", some 7, some "f", some "mod.py"⟩

/-- Concrete `get_logger` kwargs supplying a webhook URL. -/
def kwW : LoggerKwargs :=
  { LoggerKwargs.default with webhook_url := some "https://discord.com/webhook" }

/-- A different configuration for a repeat `get_logger` call. -/
def kwW2 : LoggerKwargs := { kwW with embed_all := true, level := .enum .DEBUG }

/-- The logger state `DiscordLogger.init "X" kwW none` constructs. -/
def cfgX : LoggerState :=
  ⟨"X", "https://discord.com/webhook", [], ⟨false, false, false, false, false⟩, .INFO⟩

/-- A concrete two-destination payload and per-destination statuses. -/
def payloadW : LogPayload := ⟨recAllW, ["https://a", "https://b"]⟩

def respondW : String → Nat := fun u => if u = "https://b" then 400 else 200

/-- The race of two first-time `get_logger "X"` calls under the schedule
check(A), check(B), insert(A), insert(B), return(A), return(B). -/
def raceW : RaceState :=
  runRace "X" kwW none ⟨ManagerState.empty, .atCheck, .atCheck⟩
    [true, false, true, false, true, false]

/-! ### Helper lemmas -/

lemma lookupName_setName_self (l : List (String × LoggerInstance)) (k : String)
    (v : LoggerInstance) : lookupName (setName l k v) k = some v := by
  induction l with
  | nil => simp [setName, lookupName]
  | cons hd tl ih =>
      obtain ⟨k', v'⟩ := hd
      by_cases h : k' = k
      · simp [setName, lookupName, h]
      · simp [setName, lookupName, h, ih]

lemma lookupName_eq_none_iff (l : List (String × LoggerInstance)) (k : String) :
    lookupName l k = none ↔ k ∉ l.map Prod.fst := by
  induction l with
  | nil => simp [lookupName]
  | cons hd tl ih =>
      obtain ⟨k', v'⟩ := hd
      by_cases h : k' = k
      · simp [lookupName, h]
      · simp [lookupName, h, ih, Ne.symm h]

lemma map_fst_setName_of_notMem (l : List (String × LoggerInstance)) (k : String)
    (v : LoggerInstance) (h : k ∉ l.map Prod.fst) :
    (setName l k v).map Prod.fst = l.map Prod.fst ++ [k] := by
  induction l with
  | nil => simp [setName]
  | cons hd tl ih =>
      obtain ⟨k', v'⟩ := hd
      simp only [List.map_cons, List.mem_cons] at h
      push_neg at h
      simp [setName, Ne.symm h.1, ih h.2]

lemma nodup_keys_setName (l : List (String × LoggerInstance)) (k : String)
    (v : LoggerInstance) (hn : (l.map Prod.fst).Nodup)
    (h : lookupName l k = none) : ((setName l k v).map Prod.fst).Nodup := by
  have hk := (lookupName_eq_none_iff l k).1 h
  rw [map_fst_setName_of_notMem l k v hk]
  simp [List.nodup_append, hn, hk]

lemma log_below (lg : LoggerState) (L : LogLevel) (msg : String)
    (ctx : CallerContext) (st : Nat) (h : L.value < lg.level.value) :
    DiscordLogger.log lg (.enum L) msg ctx st =
      .ok ⟨none, false, [], []⟩ := by
  simp [DiscordLogger.log, parse_level_to_int, h]

lemma log_pass (lg : LoggerState) (L : LogLevel) (msg : String)
    (ctx : CallerContext) (st : Nat) (h : ¬ L.value < lg.level.value) :
    DiscordLogger.log lg (.enum L) msg ctx st =
      .ok { recordBuilt := some (buildRecord lg L msg ctx.now (DiscordLogger.get_fields lg ctx).1)
          , inspectedCaller := (DiscordLogger.get_fields lg ctx).2
          , deliveries := [⟨lg.webhook_url, format_payload_embedded
              (buildRecord lg L msg ctx.now (DiscordLogger.get_fields lg ctx).1)⟩]
          , warnings := if st ≠ 200 then [syncFailWarning st] else [] } := by
  simp [DiscordLogger.log, parse_level_to_int, parse_level, h]

lemma get_logger_of_found (m : ManagerState) (name : String) (kw : LoggerKwargs)
    (env : Option String) (inst : LoggerInstance)
    (h : lookupName m.registry name = some inst) :
    m.get_logger name kw env = .ok (inst, m) := by
  simp [ManagerState.get_logger, ManagerState.returnRegistered, h]

lemma stepOp_queue_started (p : ProcessState) (op : ApiOp) :
    (stepOp p op).1.dispatcherQueue = p.dispatcherQueue ∧
    (stepOp p op).1.dispatcherStarted = p.dispatcherStarted := by
  cases op <;> simp only [stepOp, LoggerManager.construct] <;>
    (repeat' split) <;> simp

lemma runOps_queue_started (ops : List ApiOp) (p : ProcessState) :
    (runOps p ops).dispatcherQueue = p.dispatcherQueue ∧
    (runOps p ops).dispatcherStarted = p.dispatcherStarted := by
  induction ops generalizing p with
  | nil => exact ⟨rfl, rfl⟩
  | cons op rest ih =>
      have h := stepOp_queue_started p op
      have h2 := ih (stepOp p op).1
      exact ⟨h2.1.trans h.1, h2.2.trans h.2⟩

lemma strContains_middle (pre mid suf : String) :
    strContains (pre ++ mid ++ suf) mid := by
  unfold strContains
  have : (pre ++ mid ++ suf).toList = pre.toList ++ mid.toList ++ suf.toList := by
    simp [String.toList, String.data_append]
  rw [this]
  exact List.infix_append _ _ _

lemma filterMap_guard {α β : Type} (P : α → Prop) [DecidablePred P] (g : α → β)
    (l : List α) :
    l.filterMap (fun a => if P a then some (g a) else none) =
      (l.filter (fun a => decide (P a))).map g := by
  induction l with
  | nil => rfl
  | cons a tl ih => by_cases h : P a <;> simp [h, ih]

/-! ### C1 -/

/-- C1: a `log` call at a level strictly below the configured threshold
returns with no record built, no caller inspected, no delivery and no
warning; a `log` call at exactly the threshold level performs exactly one
delivery. -/
theorem C1_threshold_filter (lg : LoggerState) (L1 : LogLevel) (msg : String)
    (ctx : CallerContext) (st : Nat) (h1 : L1.value < lg.level.value) :
    DiscordLogger.log lg (.enum L1) msg ctx st =
      .ok { recordBuilt := none, inspectedCaller := false
          , deliveries := [], warnings := [] } ∧
    ∃ out, DiscordLogger.log lg (.enum lg.level) msg ctx st = .ok out ∧
      out.deliveries.length = 1 :=
  ⟨log_below lg L1 msg ctx st h1,
   _, log_pass lg lg.level msg ctx st (lt_irrefl _), rfl⟩

theorem C1_threshold_filter_witness :
    DiscordLogger.log lgW (.enum .DEBUG) "m" ctxW 200 =
      .ok { recordBuilt := none, inspectedCaller := false
          , deliveries := [], warnings := [] } ∧
    ∃ out, DiscordLogger.log lgW (.enum lgW.level) "m" ctxW 200 = .ok out ∧
      out.deliveries.length = 1 :=
  C1_threshold_filter lgW .DEBUG "m" ctxW 200 (by decide)

/-! ### C2 -/

/-- C2: once `get_logger name` has returned an instance, any later
`get_logger name` call with arbitrary different kwargs returns the identical
instance and leaves the registry state unchanged, and registry keys stay
duplicate-free. -/
theorem C2_first_registration_wins (m : ManagerState) (name : String)
    (kw1 kw2 : LoggerKwargs) (env1 env2 : Option String)
    (inst : LoggerInstance) (m' : ManagerState)
    (h : m.get_logger name kw1 env1 = .ok (inst, m')) :
    m'.get_logger name kw2 env2 = .ok (inst, m') ∧
    ((m.registry.map Prod.fst).Nodup → (m'.registry.map Prod.fst).Nodup) := by
  rcases hl : lookupName m.registry name with _ | i
  · rcases hi : DiscordLogger.init name kw1 env1 with e | cfg
    · simp [ManagerState.get_logger, hl, hi] at h
    · simp [ManagerState.get_logger, ManagerState.returnRegistered, hl, hi,
        lookupName_setName_self] at h
      obtain ⟨h1, h2⟩ := h
      subst h1
      subst h2
      refine ⟨get_logger_of_found _ _ _ _ _ (lookupName_setName_self _ _ _), ?_⟩
      intro hn
      exact nodup_keys_setName _ _ _ hn hl
  · simp [ManagerState.get_logger, ManagerState.returnRegistered, hl] at h
    obtain ⟨h1, h2⟩ := h
    subst h1
    subst h2
    exact ⟨get_logger_of_found _ _ _ _ _ hl, fun hn => hn⟩

theorem C2_first_registration_wins_witness :
    (ManagerState.mk [("X", ⟨0, cfgX⟩)] 1).get_logger "X" kwW2 none =
      .ok (⟨0, cfgX⟩, ManagerState.mk [("X", ⟨0, cfgX⟩)] 1) ∧
    ((ManagerState.empty.registry.map Prod.fst).Nodup →
      (([("X", (⟨0, cfgX⟩ : LoggerInstance))].map Prod.fst).Nodup)) :=
  C2_first_registration_wins ManagerState.empty "X" kwW kwW2 none none
    ⟨0, cfgX⟩ (ManagerState.mk [("X", ⟨0, cfgX⟩)] 1) rfl

/-! ### C3 -/

/-- C3 counterexample: a synchronous `log` delivery to `https://x` that
receives status 400 completes without raising and emits exactly one warning,
but that warning text does not contain the destination URL, so it does not
identify the destination as the claim states. -/
theorem C3_counterexample :
    (∃ out, DiscordLogger.log lgW (.enum .ERROR) "boom" ctxW 400 = .ok out ∧
      out.warnings = [syncFailWarning 400] ∧
      out.deliveries.map DeliveryAttempt.url = ["https://x"]) ∧
    ¬ strContains (syncFailWarning 400) "https://x" :=
  ⟨⟨_, rfl, rfl, rfl⟩, by decide⟩

/-- C3 amended: a non-200 status never raises; the synchronous path emits
exactly one warning that identifies the status received but not the
destination, while the dispatcher path emits exactly one warning per failing
destination identifying both that destination and its status, and always
returns (one delivery attempt per destination) without raising. -/
theorem C3_nonfatal_warning (lg : LoggerState) (L : LogLevel) (msg : String)
    (ctx : CallerContext) (status : Nat)
    (hpass : ¬ L.value < lg.level.value) (hfail : status ≠ 200) :
    (∃ out, DiscordLogger.log lg (.enum L) msg ctx status = .ok out ∧
      out.warnings = [syncFailWarning status] ∧
      strContains (syncFailWarning status) (toString status)) ∧
    ∀ (p : LogPayload) (respond : String → Nat),
      (Dispatcher.dispatch p respond).2 =
        (p.url.filter (fun u => decide (respond u ≠ 200))).map
          (fun u => dispatchFailWarning u (respond u)) ∧
      (Dispatcher.dispatch p respond).1.map DeliveryAttempt.url = p.url ∧
      ∀ u, respond u ≠ 200 →
        strContains (dispatchFailWarning u (respond u)) u ∧
        strContains (dispatchFailWarning u (respond u)) (toString (respond u)) := by
  constructor
  · refine ⟨_, log_pass lg L msg ctx status hpass, ?_, ?_⟩
    · simp [hfail]
    · have h := strContains_middle "Failed to send log. Status code: " (toString status) ""
      simpa [syncFailWarning] using h
  · intro p respond
    refine ⟨?_, ?_, ?_⟩
    · simp only [Dispatcher.dispatch]
      exact filterMap_guard (fun u => respond u ≠ 200)
        (fun u => dispatchFailWarning u (respond u)) p.url
    · simp only [Dispatcher.dispatch, List.map_map]
      exact List.map_id p.url
    · intro u hu
      constructor
      · have h := strContains_middle "Failed to log message to " u
          (", status code: " ++ toString (respond u))
        simpa [dispatchFailWarning, String.append_assoc] using h
      · have h := strContains_middle
          ("Failed to log message to " ++ u ++ ", status code: ")
          (toString (respond u)) ""
        simpa [dispatchFailWarning, String.append_assoc] using h

theorem C3_nonfatal_warning_witness :
    (∃ out, DiscordLogger.log lgW (.enum .ERROR) "boom" ctxW 400 = .ok out ∧
      out.warnings = [syncFailWarning 400] ∧
      strContains (syncFailWarning 400) (toString 400)) ∧
    ((Dispatcher.dispatch payloadW respondW).2 =
        (payloadW.url.filter (fun u => decide (respondW u ≠ 200))).map
          (fun u => dispatchFailWarning u (respondW u)) ∧
     (Dispatcher.dispatch payloadW respondW).1.map DeliveryAttempt.url = payloadW.url ∧
     (strContains (dispatchFailWarning "https://b" (respondW "https://b")) "https://b" ∧
      strContains (dispatchFailWarning "https://b" (respondW "https://b"))
        (toString (respondW "https://b")))) :=
  have h := C3_nonfatal_warning lgW .ERROR "boom" ctxW 400 (by decide) (by decide)
  ⟨h.1, (h.2 payloadW respondW).1, (h.2 payloadW respondW).2.1,
    (h.2 payloadW respondW).2.2 "https://b" (by decide)⟩

/-! ### C4 -/

/-- C4 counterexample: for a record with all five optional fields present the
embed emits the fields in the order [Thread, Process, Line, Function, Module],
not the claimed [Thread, Process, Function, Module, Line]. -/
theorem C4_counterexample :
    (format_payload_embedded recAllW).fields.map Prod.fst =
      ["Thread", "Process", "Line", "Function", "Module"] ∧
    (format_payload_embedded recAllW).fields.map Prod.fst ≠
      ["Thread", "Process", "Function", "Module", "Line"] :=
  ⟨rfl, by decide⟩

set_option maxHeartbeats 2000000 in
/-- C4 amended: a `log` call that passes the filter delivers an embed whose
fields are exactly the optional fields enabled on the logger — no placeholder
for a disabled one — in the fixed display order
[Thread, Process, Line, Function, Module]. -/
theorem C4_exact_fields (lg : LoggerState) (L : LogLevel) (msg : String)
    (ctx : CallerContext) (st : Nat) (hpass : ¬ L.value < lg.level.value) :
    ∃ out emb, DiscordLogger.log lg (.enum L) msg ctx st = .ok out ∧
      out.deliveries = [⟨lg.webhook_url, emb⟩] ∧
      emb.fields.map Prod.fst =
        (if lg.optional_fields.thread_name then ["Thread"] else []) ++
        (if lg.optional_fields.process_name then ["Process"] else []) ++
        (if lg.optional_fields.line_number then ["Line"] else []) ++
        (if lg.optional_fields.func_name then ["Function"] else []) ++
        (if lg.optional_fields.module_name then ["Module"] else []) := by
  obtain ⟨an, url, kws, ⟨t, p, mo, f, li⟩, lev⟩ := lg
  refine ⟨_, _, log_pass _ L msg ctx st hpass, rfl, ?_⟩
  cases t <;> cases p <;> cases mo <;> cases f <;> cases li <;>
    simp [DiscordLogger.get_fields, buildRecord, format_payload_embedded,
      LogRecord.get_optional_fields, getStr, getInt, embedded_key_to_name,
      List.lookup]

theorem C4_exact_fields_witness :
    ∃ out emb, DiscordLogger.log lgW (.enum .ERROR) "m" ctxW 200 = .ok out ∧
      out.deliveries = [⟨lgW.webhook_url, emb⟩] ∧
      emb.fields.map Prod.fst =
        (if lgW.optional_fields.thread_name then ["Thread"] else []) ++
        (if lgW.optional_fields.process_name then ["Process"] else []) ++
        (if lgW.optional_fields.line_number then ["Line"] else []) ++
        (if lgW.optional_fields.func_name then ["Function"] else []) ++
        (if lgW.optional_fields.module_name then ["Module"] else []) :=
  C4_exact_fields lgW .ERROR "m" ctxW 200 (by decide)

/-! ### C5 -/

/-- C5 counterexample: 15 is not a defined `LogLevel` value, yet
`log(15, "m")` on a logger with threshold INFO returns normally — no
validation error is raised and no delivery happens, contradicting the claim
that every invalid int input fails with a range/value error at parse time. -/
theorem C5_counterexample :
    LogLevel.ofValue? 15 = none ∧
    DiscordLogger.log lgW (.int 15) "m" ctxW 200 =
      .ok { recordBuilt := none, inspectedCaller := false
          , deliveries := [], warnings := [] } :=
  ⟨rfl, rfl⟩

/-- C5 amended: a string that is not a level name raises `KeyError` at the
first parse, before the threshold comparison, with no delivery, whatever the
threshold; an int is accepted unvalidated at the first parse — when it does
not map to a defined level, a below-threshold call returns silently with no
error and no delivery, and only an at-or-above-threshold call raises
`ValueError` (at the second parse), again with no delivery. -/
theorem C5_level_validation (lg : LoggerState) (msg : String)
    (ctx : CallerContext) (st : Nat) :
    (∀ s : String, LogLevel.ofName? s = none →
      DiscordLogger.log lg (.str s) msg ctx st = .error (.keyError s)) ∧
    (∀ n : Int, LogLevel.ofValue? n = none →
      (n < lg.level.value →
        DiscordLogger.log lg (.int n) msg ctx st =
          .ok { recordBuilt := none, inspectedCaller := false
              , deliveries := [], warnings := [] }) ∧
      (¬ n < lg.level.value →
        DiscordLogger.log lg (.int n) msg ctx st =
          .error (.valueError "not a valid LogLevel"))) := by
  constructor
  · intro s hs
    simp [DiscordLogger.log, parse_level_to_int, hs]
  · intro n hn
    constructor
    · intro hlt
      simp [DiscordLogger.log, parse_level_to_int, hlt]
    · intro hge
      simp [DiscordLogger.log, parse_level_to_int, parse_level, hge, hn]

theorem C5_level_validation_witness :
    DiscordLogger.log lgW (.str "VERBOSE") "m" ctxW 200 =
      .error (.keyError "VERBOSE") ∧
    DiscordLogger.log lgW (.int 15) "m" ctxW 200 =
      .ok { recordBuilt := none, inspectedCaller := false
          , deliveries := [], warnings := [] } ∧
    DiscordLogger.log lgW (.int 25) "m" ctxW 200 =
      .error (.valueError "not a valid LogLevel") :=
  ⟨(C5_level_validation lgW "m" ctxW 200).1 "VERBOSE" rfl,
   ((C5_level_validation lgW "m" ctxW 200).2 15 rfl).1 (by decide),
   ((C5_level_validation lgW "m" ctxW 200).2 25 rfl).2 (by decide)⟩

/-! ### C6 -/

/-- C6 (code evaluation): after the module import has constructed the
singleton once, a further `LoggerManager()` construction leaves the singleton
instance unchanged but constructs a second `_Dispatcher`, and no dispatcher
thread has ever been started — contradicting the claim that the Dispatcher is
constructed exactly once and runs for the process lifetime. -/
theorem C6_repeated_dispatcher_construction :
    initialProcess.dispatchersConstructed = 1 ∧
    (LoggerManager.construct initialProcess).dispatchersConstructed = 2 ∧
    (LoggerManager.construct initialProcess).managerInstance =
      initialProcess.managerInstance ∧
    (LoggerManager.construct initialProcess).dispatcherStarted = false :=
  ⟨rfl, rfl, rfl, rfl⟩

/-! ### C7 -/

/-- C7: under any sequence of public API operations the dispatcher queue
stays empty and the dispatcher thread is never started, and every `log` call
that passes the level filter performs its single delivery synchronously
through the logger's own webhook client. -/
theorem C7_synchronous_delivery_only (ops : List ApiOp) (lg : LoggerState)
    (L : LogLevel) (msg : String) (ctx : CallerContext) (st : Nat)
    (hpass : ¬ L.value < lg.level.value) :
    (runOps initialProcess ops).dispatcherQueue = [] ∧
    (runOps initialProcess ops).dispatcherStarted = false ∧
    ∃ out, DiscordLogger.log lg (.enum L) msg ctx st = .ok out ∧
      out.deliveries = [⟨lg.webhook_url, format_payload_embedded
        (buildRecord lg L msg ctx.now (DiscordLogger.get_fields lg ctx).1)⟩] :=
  have h := runOps_queue_started ops initialProcess
  ⟨h.1, h.2, _, log_pass lg L msg ctx st hpass, rfl⟩

theorem C7_synchronous_delivery_only_witness :
    (runOps initialProcess
        [ApiOp.constructManager, ApiOp.getLogger "X" kwW none]).dispatcherQueue = [] ∧
    (runOps initialProcess
        [ApiOp.constructManager, ApiOp.getLogger "X" kwW none]).dispatcherStarted = false ∧
    ∃ out, DiscordLogger.log lgW (.enum .ERROR) "m" ctxW 200 = .ok out ∧
      out.deliveries = [⟨lgW.webhook_url, format_payload_embedded
        (buildRecord lgW .ERROR "m" ctxW.now (DiscordLogger.get_fields lgW ctxW).1)⟩] :=
  C7_synchronous_delivery_only [ApiOp.constructManager, ApiOp.getLogger "X" kwW none]
    lgW .ERROR "m" ctxW 200 (by decide)

/-! ### C8 -/


/-- C8 (code evaluation): with no lock around check-then-insert, two
concurrent first-time `get_logger "X"` calls can both see the name absent and
both construct a logger: two `DiscordLogger` objects are created
(`nextId = 2`), the second insert overwrites the first, and both threads
return the surviving instance (id 1) — contradicting the claim that exactly
one instance is ever created per name. -/
theorem C8_unsynchronized_double_construction :
    raceW.shared.nextId = 2 ∧
    raceW.shared.registry.map (fun kv => (kv.1, kv.2.id)) = [("X", 1)] ∧
    raceW.tA = raceW.tB :=
  ⟨rfl, rfl, rfl⟩

/-! ### C9 -/

/-- C9 counterexample: the embed title for an INFO record is the level name
wrapped in backticks, not the level name itself. -/
theorem C9_counterexample :
    (format_payload_embedded recAllW).title = "`INFO`" ∧
    (format_payload_embedded recAllW).title ≠ recAllW.level.name :=
  ⟨rfl, by decide⟩

/-- C9 amended: a `log` call that passes the filter delivers an embed whose
title is the level name wrapped in backticks, whose description is the
message, author the app name, footer the package name followed by the
version, color the level's color, and timestamp the record's timestamp
normalized to UTC (same instant, zero offset). -/
theorem C9_embed_components (lg : LoggerState) (L : LogLevel) (msg : String)
    (ctx : CallerContext) (st : Nat) (hpass : ¬ L.value < lg.level.value) :
    ∃ out emb, DiscordLogger.log lg (.enum L) msg ctx st = .ok out ∧
      out.deliveries = [⟨lg.webhook_url, emb⟩] ∧
      emb.title = "`" ++ L.name ++ "`" ∧
      emb.description = msg ∧
      emb.author = lg.app_name ∧
      emb.footer = package_name ++ " " ++ versionString ∧
      emb.color = LevelColor L ∧
      emb.timestamp = ⟨ctx.now.epoch, 0⟩ :=
  ⟨_, _, log_pass lg L msg ctx st hpass, rfl, rfl, rfl, rfl, rfl, rfl, rfl⟩

theorem C9_embed_components_witness :
    ∃ out emb, DiscordLogger.log lgW (.enum .WARNING) "m" ctxW 200 = .ok out ∧
      out.deliveries = [⟨lgW.webhook_url, emb⟩] ∧
      emb.title = "`" ++ LogLevel.WARNING.name ++ "`" ∧
      emb.description = "m" ∧
      emb.author = lgW.app_name ∧
      emb.footer = package_name ++ " " ++ versionString ∧
      emb.color = LevelColor .WARNING ∧
      emb.timestamp = ⟨ctxW.now.epoch, 0⟩ :=
  C9_embed_components lgW .WARNING "m" ctxW 200 (by decide)

/-! ### C10 -/

/-- C10 (code evaluation): `DiscordLogger.__init__` has no payload-format
parameter and performs no payload-mode validation: constructing a logger with
`payload_type=2` among the kwargs succeeds, the kwarg being forwarded
untouched to the webhook client — no `ValueError` is raised, contradicting
the claim (and the repository's own test expecting one). -/
theorem C10_no_payload_mode_validation :
    DiscordLogger.init "MyApp"
      { LoggerKwargs.default with
          webhook_url := some "https://discord.com/webhook"
        , extraKwargs := [("payload_type", 2)] } none =
    .ok { app_name := "MyApp"
        , webhook_url := "https://discord.com/webhook"
        , webhook_kwargs := [("payload_type", 2)]
        , optional_fields := ⟨false, false, false, false, false⟩
        , level := .INFO } :=
  rfl

end DiscordLoggerModel
